import Mathlib

/-!
Verification development for a RESTful CRUD backend over a single `Item`
resource (Express + Prisma + PostgreSQL).  The embedding below follows the
source files:

* `src/controllers/items.controller.ts` — HTTP handlers (validation and
  response shaping),
* `src/services/items.service.ts` — data-access layer (Prisma operations),
* `src/middleware/errorHandler.ts` — error-translation middleware,
* `prisma/migrations/20251210235004_update_item_table/migration.sql` —
  schema defaults for the `Item` table.

JavaScript numbers are modelled as rationals (`ℚ`): every comparison and
integrality test the code performs (`< 0`, `Number.isInteger`) is exact at
the values the claims mention, so `ℚ` is a faithful model of those checks.
Request bodies are records of optional JavaScript values, distinguishing an
absent key (`none`) from a present value of any runtime type, which is what
the `!== undefined` / `typeof` checks in the controllers inspect.
-/

/-- A JavaScript runtime value as inspected by the controllers' `typeof`
checks: a string, a number, a boolean, or `null` (whose `typeof` is not
`string`/`number`, so it fails those checks exactly as in JS). -/
inductive JsValue where
  | str (s : String)
  | num (q : ℚ)
  | boolean (b : Bool)
  | jsNull
  deriving DecidableEq

/-- A persisted `Item` row, following the Prisma schema after migration
`20251210235004_update_item_table`: string UUID id, text fields with
defaults, integer quantity, double `unitPrice`, timestamps. Timestamps are
modelled as logical clock ticks (`Nat`), the converted `date` as `Int`. -/
structure Item where
  id : String
  name : String
  description : String
  quantity : ℚ
  unitPrice : ℚ
  category : String
  date : Int
  ownerID : String
  createdAt : Nat
  updatedAt : Nat
  deriving DecidableEq

/-- The persistent store: the `Item` table plus a logical clock used for
`now()` timestamps and a counter for generated UUIDs. -/
structure Store where
  items : List Item
  clock : Nat
  nextId : Nat
  deriving DecidableEq

/-- Fresh UUID generation (Prisma `@default(uuid())`), modelled as a counter
rendered into a string. -/
def freshId (s : Store) : String := "uuid-" ++ toString s.nextId

/-- Abstraction of the JavaScript `new Date(value)` conversion performed in
`items.service.ts` (`new Date(data.date)`).  No claim depends on the numeric
value produced, only on whether the `date` field was supplied; the source
performs no parseability validation. -/
def jsDateOf : JsValue → Int
  | .num q => ⌊q⌋
  | _ => 0

/-- The whitespace class stripped by JavaScript `String.prototype.trim` (the
characters occurring in the claims; JS also strips rarer Unicode spaces,
which no claim involves). -/
def isJsWs (c : Char) : Bool :=
  c = ' ' || c = '\t' || c = '\n' || c = '\r'

/-- JavaScript `s.trim()`: strip leading and trailing whitespace.  Modelled
structurally over the character list so concrete instances evaluate. -/
def jsTrim (s : String) : String :=
  String.mk (((s.data.dropWhile isJsWs).reverse.dropWhile isJsWs).reverse)

/-- `CreateItemInput` from `items.service.ts`: all fields optional; `date`
is carried raw (string or Date in TS) and converted at persistence time. -/
structure CreateItemInput where
  name : Option String := none
  description : Option String := none
  quantity : Option ℚ := none
  unitPrice : Option ℚ := none
  category : Option String := none
  date : Option JsValue := none
  ownerID : Option String := none
  deriving DecidableEq

/-- `UpdateItemInput` from `items.service.ts`: all fields optional to
support partial updates. -/
structure UpdateItemInput where
  name : Option String := none
  description : Option String := none
  quantity : Option ℚ := none
  unitPrice : Option ℚ := none
  category : Option String := none
  date : Option JsValue := none
  ownerID : Option String := none
  deriving DecidableEq

/-- Error kinds thrown by the data-access layer and recognised by the error
middleware.  `p2025` is Prisma's record-not-found-on-mutate error, thrown by
`prisma.item.update` / `prisma.item.delete` when the id does not exist. -/
inductive SvcErr where
  | p2025
  deriving DecidableEq

namespace Service

/-- Ordering used by `getAllItems`: `orderBy: createdAt: 'desc'` — newest
(largest `createdAt`) first. -/
def byNewest (a b : Item) : Prop := b.createdAt ≤ a.createdAt

instance : DecidableRel byNewest :=
  fun a b => inferInstanceAs (Decidable (b.createdAt ≤ a.createdAt))

instance : IsTotal Item byNewest :=
  ⟨fun a b => Nat.le_total b.createdAt a.createdAt⟩

instance : IsTrans Item byNewest :=
  ⟨fun _ _ _ h1 h2 => Nat.le_trans h2 h1⟩

/-- `getAllItems` (`items.service.ts`): `findMany` ordered by `createdAt`
descending; empty list when no rows exist. -/
def getAllItems (s : Store) : List Item :=
  List.insertionSort byNewest s.items

/-- `getItemById` (`items.service.ts`): `findUnique` by primary key —
returns the row or `null` (here `none`); never throws for a missing row. -/
def getItemById (s : Store) (id : String) : Option Item :=
  s.items.find? (fun it => decide (it.id = id))

/-- `createItem` (`items.service.ts`): `prisma.item.create`.  Omitted fields
take the schema defaults of migration `20251210235004_update_item_table`:
`name = "item"`, `description = "item description"`, `quantity = 1`,
`unitPrice = 0.0`, `category = "Temporary"`, `date = now()`,
`ownerID = "admin-1"`; `createdAt` and `updatedAt` are set to `now()`. -/
def createItem (s : Store) (d : CreateItemInput) : Item × Store :=
  let it : Item :=
    { id := freshId s
      name := d.name.getD "item"
      description := d.description.getD "item description"
      quantity := d.quantity.getD 1
      unitPrice := d.unitPrice.getD 0
      category := d.category.getD "Temporary"
      date := match d.date with
        | some v => jsDateOf v
        | none => (s.clock : Int)
      ownerID := d.ownerID.getD "admin-1"
      createdAt := s.clock
      updatedAt := s.clock }
  (it, { items := s.items ++ [it], clock := s.clock + 1, nextId := s.nextId + 1 })

/-- The partial merge performed by `prisma.item.update`'s `data` object:
only supplied fields are overwritten, `updatedAt` is refreshed, `id` and
`createdAt` are untouched. -/
def applyUpdate (d : UpdateItemInput) (now : Nat) (it : Item) : Item :=
  { it with
    name := d.name.getD it.name
    description := d.description.getD it.description
    quantity := d.quantity.getD it.quantity
    unitPrice := d.unitPrice.getD it.unitPrice
    category := d.category.getD it.category
    date := match d.date with
      | some v => jsDateOf v
      | none => it.date
    ownerID := d.ownerID.getD it.ownerID
    updatedAt := now }

/-- `updateItem` (`items.service.ts`): `prisma.item.update` — partial merge
of supplied fields on the matching row; throws Prisma error P2025 when the
id does not exist. -/
def updateItem (s : Store) (id : String) (d : UpdateItemInput) :
    Except SvcErr (Item × Store) :=
  match s.items.find? (fun it => decide (it.id = id)) with
  | none => .error .p2025
  | some it0 =>
      .ok (applyUpdate d s.clock it0,
        { s with
          items := s.items.map
            (fun x => if x.id = id then applyUpdate d s.clock x else x)
          clock := s.clock + 1 })

/-- `deleteItem` (`items.service.ts`): `prisma.item.delete` — removes the
row and returns its prior state; throws Prisma error P2025 when the id does
not exist. -/
def deleteItem (s : Store) (id : String) : Except SvcErr (Item × Store) :=
  match s.items.find? (fun it => decide (it.id = id)) with
  | none => .error .p2025
  | some it0 =>
      .ok (it0, { s with items := s.items.filter (fun x => decide (¬ x.id = id)) })

end Service

/-- A request body for POST /items and PUT /items/:id: each recognised key
is either absent (`none`, the JS `undefined` case of the destructuring in
the controllers) or present with some runtime value. -/
structure Body where
  name : Option JsValue := none
  description : Option JsValue := none
  quantity : Option JsValue := none
  unitPrice : Option JsValue := none
  category : Option JsValue := none
  date : Option JsValue := none
  ownerID : Option JsValue := none
  deriving DecidableEq

/-- JSON bodies the controllers produce. -/
inductive RespBody where
  | errObj (error : String)
  | itemObj (it : Item)
  | itemsArr (l : List Item)
  | deleteOk
  deriving DecidableEq

/-- What a handler does with the response: write an HTTP response, or
forward an exception to the error middleware via `next(error)`. -/
inductive Outcome where
  | resp (status : Nat) (body : RespBody)
  | thrown (e : SvcErr)
  deriving DecidableEq

/-- The HTTP status of an outcome, `none` when the handler forwarded an
exception instead of responding itself. -/
def Outcome.statusOf : Outcome → Option Nat
  | .resp n _ => some n
  | .thrown _ => none

/-- Result of running a handler: its outcome, the store after the request,
and whether any service function was invoked. -/
structure HandlerOut where
  out : Outcome
  store : Store
  svcInvoked : Bool
  deriving DecidableEq

namespace Controller

/-- The check on `name` in `createItem`/`updateItem`
(`items.controller.ts`): rejected iff present and not a string, or a string
that is empty after trimming. -/
def badName : Option JsValue → Bool
  | none => false
  | some (.str s) => jsTrim s = ""
  | some _ => true

/-- The check on `description`: rejected iff present and not a string
(empty strings are allowed). -/
def badDescription : Option JsValue → Bool
  | none => false
  | some (.str _) => false
  | some _ => true

/-- The check on `quantity`: rejected iff present and not a number, or
negative, or not an integer (`Number.isInteger`). -/
def badQuantity : Option JsValue → Bool
  | none => false
  | some (.num q) => decide (q < 0) || decide (q.den ≠ 1)
  | some _ => true

/-- The check on `unitPrice`: rejected iff present and not a number, or
negative. -/
def badUnitPrice : Option JsValue → Bool
  | none => false
  | some (.num q) => decide (q < 0)
  | some _ => true

/-- The check on `category`: same shape as the `name` check. -/
def badCategory : Option JsValue → Bool
  | none => false
  | some (.str s) => jsTrim s = ""
  | some _ => true

/-- The check on `ownerID`: same shape as the `name` check. -/
def badOwnerID : Option JsValue → Bool
  | none => false
  | some (.str s) => jsTrim s = ""
  | some _ => true

/-- String payload of a value that passed a `typeof x === 'string'` check
(the fallback branch is unreachable after validation). -/
def strOf : JsValue → String
  | .str s => s
  | _ => ""

/-- Numeric payload of a value that passed a `typeof x === 'number'` check. -/
def numOf : JsValue → ℚ
  | .num q => q
  | _ => 0

/-- The `createData` object built in `createItem` after validation: string
fields are trimmed, numbers passed through, `date` passed raw. -/
def mkCreateInput (b : Body) : CreateItemInput :=
  { name := b.name.map (fun v => jsTrim (strOf v))
    description := b.description.map (fun v => jsTrim (strOf v))
    quantity := b.quantity.map numOf
    unitPrice := b.unitPrice.map numOf
    category := b.category.map (fun v => jsTrim (strOf v))
    date := b.date
    ownerID := b.ownerID.map (fun v => jsTrim (strOf v)) }

/-- The `updateData` object built in `updateItem` after validation. -/
def mkUpdateInput (b : Body) : UpdateItemInput :=
  { name := b.name.map (fun v => jsTrim (strOf v))
    description := b.description.map (fun v => jsTrim (strOf v))
    quantity := b.quantity.map numOf
    unitPrice := b.unitPrice.map numOf
    category := b.category.map (fun v => jsTrim (strOf v))
    date := b.date
    ownerID := b.ownerID.map (fun v => jsTrim (strOf v)) }

/-- The id guard shared by the get/update/delete handlers:
`!id || typeof id !== 'string' || id.trim() === ''`.  For a string path
parameter this is: empty, or whitespace-only. -/
def badId (id : String) : Bool :=
  id = "" || jsTrim id = ""

/-- The `updateItem` guard that at least one recognised field is present. -/
def allAbsent (b : Body) : Bool :=
  b.name = none && b.description = none && b.quantity = none &&
  b.unitPrice = none && b.category = none && b.date = none && b.ownerID = none

/-- GET /items handler (`getAllItems` in `items.controller.ts`). -/
def getAllItems (s : Store) : HandlerOut :=
  { out := .resp 200 (.itemsArr (Service.getAllItems s)), store := s, svcInvoked := true }

/-- GET /items/:id handler (`getItemById` in `items.controller.ts`). -/
def getItemById (s : Store) (id : String) : HandlerOut :=
  if badId id then
    { out := .resp 400 (.errObj "Invalid item ID"), store := s, svcInvoked := false }
  else
    match Service.getItemById s id with
    | none => { out := .resp 404 (.errObj "Item not found"), store := s, svcInvoked := true }
    | some it => { out := .resp 200 (.itemObj it), store := s, svcInvoked := true }

/-- POST /items handler (`createItem` in `items.controller.ts`): the
field checks run in source order, each producing its own 400 message; on
success the service is called and the created item returned with 201. -/
def createItem (s : Store) (b : Body) : HandlerOut :=
  if badName b.name then
    { out := .resp 400 (.errObj "Name must be a non-empty string"), store := s, svcInvoked := false }
  else if badDescription b.description then
    { out := .resp 400 (.errObj "Description must be a string"), store := s, svcInvoked := false }
  else if badQuantity b.quantity then
    { out := .resp 400 (.errObj "Quantity must be a non-negative integer"), store := s, svcInvoked := false }
  else if badUnitPrice b.unitPrice then
    { out := .resp 400 (.errObj "Unit price must be a non-negative number"), store := s, svcInvoked := false }
  else if badCategory b.category then
    { out := .resp 400 (.errObj "Category must be a non-empty string"), store := s, svcInvoked := false }
  else if badOwnerID b.ownerID then
    { out := .resp 400 (.errObj "Owner ID must be a non-empty string"), store := s, svcInvoked := false }
  else
    let r := Service.createItem s (mkCreateInput b)
    { out := .resp 201 (.itemObj r.1), store := r.2, svcInvoked := true }

/-- PUT /items/:id handler (`updateItem` in `items.controller.ts`): id
guard, at-least-one-field guard, per-field checks, then the service call;
a service error (P2025) is forwarded to the error middleware. -/
def updateItem (s : Store) (id : String) (b : Body) : HandlerOut :=
  if badId id then
    { out := .resp 400 (.errObj "Invalid item ID"), store := s, svcInvoked := false }
  else if allAbsent b then
    { out := .resp 400 (.errObj "At least one field (name, description, quantity, unitPrice, category, date, or ownerID) must be provided"),
      store := s, svcInvoked := false }
  else if badName b.name then
    { out := .resp 400 (.errObj "Name must be a non-empty string"), store := s, svcInvoked := false }
  else if badDescription b.description then
    { out := .resp 400 (.errObj "Description must be a string"), store := s, svcInvoked := false }
  else if badQuantity b.quantity then
    { out := .resp 400 (.errObj "Quantity must be a non-negative integer"), store := s, svcInvoked := false }
  else if badUnitPrice b.unitPrice then
    { out := .resp 400 (.errObj "Unit price must be a non-negative number"), store := s, svcInvoked := false }
  else if badCategory b.category then
    { out := .resp 400 (.errObj "Category must be a non-empty string"), store := s, svcInvoked := false }
  else if badOwnerID b.ownerID then
    { out := .resp 400 (.errObj "Owner ID must be a non-empty string"), store := s, svcInvoked := false }
  else
    match Service.updateItem s id (mkUpdateInput b) with
    | .error e => { out := .thrown e, store := s, svcInvoked := true }
    | .ok (it, s2) => { out := .resp 200 (.itemObj it), store := s2, svcInvoked := true }

/-- DELETE /items/:id handler (`deleteItem` in `items.controller.ts`). -/
def deleteItem (s : Store) (id : String) : HandlerOut :=
  if badId id then
    { out := .resp 400 (.errObj "Invalid item ID"), store := s, svcInvoked := false }
  else
    match Service.deleteItem s id with
    | .error e => { out := .thrown e, store := s, svcInvoked := true }
    | .ok (_, s2) => { out := .resp 200 .deleteOk, store := s2, svcInvoked := true }

end Controller

/-- The runtime class of an error object as inspected by the two
`instanceof` checks in `errorHandler.ts`: a Prisma known request error
carrying a code string, a Prisma validation error, or anything else. -/
inductive ErrKind where
  | knownRequest (code : String)
  | validation
  | other
  deriving DecidableEq

/-- An error object reaching the middleware (the `CustomError` interface of
`errorHandler.ts`): a message, a stack, an optional numeric `statusCode`,
and its runtime class. -/
structure JsError where
  message : String
  stack : String
  statusCode : Option Nat := none
  kind : ErrKind := .other
  deriving DecidableEq

/-- JavaScript `a || b` on an optional number: `undefined` and `0` are
falsy. -/
def jsOrNat (a : Option Nat) (b : Nat) : Nat :=
  match a with
  | some n => if n = 0 then b else n
  | none => b

/-- JavaScript `a || b` on a string: the empty string is falsy. -/
def jsOrStr (a b : String) : String :=
  if a = "" then b else a

/-- The JSON error response of the middleware: status, `error` field, and
the optional `stack` and `details` fields added in development mode. -/
structure ErrResp where
  status : Nat
  error : String
  stack : Option String
  details : Option String
  deriving DecidableEq

/-- The error-translation middleware (`errorHandler` in `errorHandler.ts`).
`env` is `process.env.NODE_ENV`.  Mirrors the source: defaults
`err.statusCode || 500` and `err.message || 'Internal Server Error'`, then
overrides for Prisma error codes P2002/P2025/P2003 and for Prisma
validation errors; `stack` and `details` are included exactly when
`env = "development"`. -/
def errorHandler (env : String) (err : JsError) : ErrResp :=
  let defaultStatus := jsOrNat err.statusCode 500
  let defaultMessage := jsOrStr err.message "Internal Server Error"
  let sm : Nat × String :=
    match err.kind with
    | .knownRequest code =>
        if code = "P2002" then (400, "A record with this value already exists")
        else if code = "P2025" then (404, "Record not found")
        else if code = "P2003" then (400, "Invalid reference to related record")
        else (defaultStatus, defaultMessage)
    | .validation => (400, "Invalid data provided")
    | .other => (defaultStatus, defaultMessage)
  { status := sm.1
    error := sm.2
    stack := if env = "development" then some err.stack else none
    details := if env = "development" then some err.message else none }


/-- The disjunction of the six per-field validation checks run by the create
and update handlers, in source order.  Each disjunct depends only on its own
field of the body: this is the claimed independence of the field checks. -/
def fieldRejected (b : Body) : Bool :=
  Controller.badName b.name || Controller.badDescription b.description ||
  Controller.badQuantity b.quantity || Controller.badUnitPrice b.unitPrice ||
  Controller.badCategory b.category || Controller.badOwnerID b.ownerID

/-- The item the create handler persists and returns for a given body. -/
def createdOf (s : Store) (b : Body) : Item :=
  (Service.createItem s (Controller.mkCreateInput b)).1

/-- The item the update handler persists and returns when the target row
`it0` exists. -/
def updatedOf (s : Store) (b : Body) (it0 : Item) : Item :=
  Service.applyUpdate (Controller.mkUpdateInput b) s.clock it0

/-- The clock invariant of reachable stores: every stored row was stamped
before the current clock value, so rows created later carry strictly larger
`createdAt` stamps. -/
def clockFresh (s : Store) : Prop := ∀ x ∈ s.items, x.createdAt < s.clock

instance (s : Store) : Decidable (clockFresh s) :=
  inferInstanceAs (Decidable (∀ x ∈ s.items, x.createdAt < s.clock))

/-- A body with no recognised field, as produced by `PUT /items/:id {}` or
`POST /items {}`. -/
def emptyBody : Body := {}

/-- A store with no rows. -/
def emptyStore : Store := { items := [], clock := 0, nextId := 0 }

/-- A concrete stored row used to evaluate the theorems below. -/
def sampleItem : Item :=
  { id := "a1", name := "widget", description := "old", quantity := 2,
    unitPrice := 5, category := "Tools", date := 7, ownerID := "admin-1",
    createdAt := 0, updatedAt := 0 }

/-- A store holding exactly `sampleItem`. -/
def sampleStore : Store := { items := [sampleItem], clock := 1, nextId := 1 }

/-- A row created after `sampleItem` (larger `createdAt`). -/
def laterItem : Item :=
  { id := "b2", name := "gadget", description := "new", quantity := 1,
    unitPrice := 2, category := "Misc", date := 9, ownerID := "admin-1",
    createdAt := 1, updatedAt := 1 }

/-- A store holding `sampleItem` and the later-created `laterItem`. -/
def twoStore : Store := { items := [sampleItem, laterItem], clock := 2, nextId := 2 }

/-- An update body supplying only a (padded) name. -/
def bodyName : Body := { name := some (.str "  New  ") }

/-- A body supplying only a whitespace-padded description. -/
def bodyDesc : Body := { description := some (.str "  x  ") }

/-- An unrecognised error that carries its own `statusCode`, as the
`CustomError` interface of the middleware allows. -/
def strayErr : JsError :=
  { message := "boom", stack := "trace", statusCode := some 403, kind := .other }

/-- An unrecognised error with no `statusCode` of its own. -/
def plainErr : JsError :=
  { message := "oops", stack := "st", statusCode := none, kind := .other }

/-- A Prisma unique-constraint violation. -/
def p2002Err : JsError :=
  { message := "unique", stack := "s1", statusCode := none, kind := .knownRequest "P2002" }

/-- A Prisma record-not-found-on-mutate error. -/
def p2025Err : JsError :=
  { message := "missing", stack := "s2", statusCode := none, kind := .knownRequest "P2025" }

/-- A Prisma foreign-key violation. -/
def p2003Err : JsError :=
  { message := "fk", stack := "s3", statusCode := none, kind := .knownRequest "P2003" }

/-- A Prisma client validation error. -/
def validationErr : JsError :=
  { message := "bad data", stack := "s4", statusCode := none, kind := .validation }

theorem fieldRejected_false_iff {b : Body} : fieldRejected b = false ↔
    Controller.badName b.name = false ∧ Controller.badDescription b.description = false ∧
    Controller.badQuantity b.quantity = false ∧ Controller.badUnitPrice b.unitPrice = false ∧
    Controller.badCategory b.category = false ∧ Controller.badOwnerID b.ownerID = false := by
  simp [fieldRejected, and_assoc]

theorem createItem_accepts (s : Store) (b : Body) (h : fieldRejected b = false) :
    Controller.createItem s b =
      { out := .resp 201 (.itemObj (createdOf s b))
        store := (Service.createItem s (Controller.mkCreateInput b)).2
        svcInvoked := true } := by
  obtain ⟨h1, h2, h3, h4, h5, h6⟩ := fieldRejected_false_iff.mp h
  simp [Controller.createItem, h1, h2, h3, h4, h5, h6, createdOf]

theorem createItem_rejects (s : Store) (b : Body) (h : fieldRejected b = true) :
    (Controller.createItem s b).out.statusOf = some 400 ∧
    (Controller.createItem s b).store = s ∧
    (Controller.createItem s b).svcInvoked = false := by
  unfold Controller.createItem
  cases h1 : Controller.badName b.name <;>
  cases h2 : Controller.badDescription b.description <;>
  cases h3 : Controller.badQuantity b.quantity <;>
  cases h4 : Controller.badUnitPrice b.unitPrice <;>
  cases h5 : Controller.badCategory b.category <;>
  cases h6 : Controller.badOwnerID b.ownerID <;>
  simp_all [fieldRejected, Outcome.statusOf]

theorem createItem_status400 (s : Store) (b : Body) :
    (Controller.createItem s b).out.statusOf = some 400 ↔ fieldRejected b = true := by
  constructor
  · intro h
    by_contra hc
    rw [createItem_accepts s b (by simpa using hc)] at h
    simp [Outcome.statusOf] at h
  · intro h
    exact (createItem_rejects s b h).1

theorem updateItem_accepts (s : Store) (id : String) (b : Body)
    (hid : Controller.badId id = false) (hne : Controller.allAbsent b = false)
    (h : fieldRejected b = false) :
    Controller.updateItem s id b =
      match Service.updateItem s id (Controller.mkUpdateInput b) with
      | .error e => { out := .thrown e, store := s, svcInvoked := true }
      | .ok (it, s2) => { out := .resp 200 (.itemObj it), store := s2, svcInvoked := true } := by
  obtain ⟨h1, h2, h3, h4, h5, h6⟩ := fieldRejected_false_iff.mp h
  simp [Controller.updateItem, hid, hne, h1, h2, h3, h4, h5, h6]

theorem updateItem_rejects (s : Store) (id : String) (b : Body)
    (h : Controller.badId id = true ∨ Controller.allAbsent b = true ∨ fieldRejected b = true) :
    (Controller.updateItem s id b).out.statusOf = some 400 ∧
    (Controller.updateItem s id b).store = s ∧
    (Controller.updateItem s id b).svcInvoked = false := by
  unfold Controller.updateItem
  cases h0 : Controller.badId id <;>
  cases ha : Controller.allAbsent b <;>
  cases h1 : Controller.badName b.name <;>
  cases h2 : Controller.badDescription b.description <;>
  cases h3 : Controller.badQuantity b.quantity <;>
  cases h4 : Controller.badUnitPrice b.unitPrice <;>
  cases h5 : Controller.badCategory b.category <;>
  cases h6 : Controller.badOwnerID b.ownerID <;>
  simp_all [fieldRejected, Outcome.statusOf]

theorem updateItem_status400 (s : Store) (id : String) (b : Body) :
    (Controller.updateItem s id b).out.statusOf = some 400 ↔
      (Controller.badId id = true ∨ Controller.allAbsent b = true ∨ fieldRejected b = true) := by
  constructor
  · intro h
    by_contra hc
    push_neg at hc
    obtain ⟨hid, hne, hv⟩ := hc
    rw [updateItem_accepts s id b (by simpa using hid) (by simpa using hne) (by simpa using hv)] at h
    rcases hr : Service.updateItem s id (Controller.mkUpdateInput b) with e | ⟨it, s2⟩ <;>
      simp_all [Outcome.statusOf]
  · intro h
    exact (updateItem_rejects s id b h).1

theorem updateItem_ok (s : Store) (id : String) (b : Body) (it0 : Item)
    (hid : Controller.badId id = false) (hne : Controller.allAbsent b = false)
    (hv : fieldRejected b = false)
    (hfind : s.items.find? (fun it => decide (it.id = id)) = some it0) :
    Controller.updateItem s id b =
      { out := .resp 200 (.itemObj (updatedOf s b it0))
        store :=
          { items := s.items.map
              (fun x => if x.id = id then Service.applyUpdate (Controller.mkUpdateInput b) s.clock x else x)
            clock := s.clock + 1
            nextId := s.nextId }
        svcInvoked := true } := by
  rw [updateItem_accepts s id b hid hne hv]
  simp [Service.updateItem, hfind, updatedOf]

/-- C1: for create (POST /items) and update (PUT /items/:id), field
validation accepts and rejects exactly at the documented boundaries.  The
first two conjuncts characterise a 400 response as exactly the disjunction
of the per-field checks (plus the id and at-least-one-field guards for
update), each depending only on its own field — the claimed independence.
The remaining conjuncts are the documented boundary values: quantity −1
rejected, 0 accepted; unitPrice −0.01 rejected, 0 accepted; empty and
whitespace-only names rejected, a one-letter name accepted — both at the
level of the checks and end to end through the create handler. -/
theorem c1_validation_boundaries :
    (∀ s b, ((Controller.createItem s b).out.statusOf = some 400 ↔ fieldRejected b = true))
    ∧ (∀ s id b, ((Controller.updateItem s id b).out.statusOf = some 400 ↔
        (Controller.badId id = true ∨ Controller.allAbsent b = true ∨ fieldRejected b = true)))
    ∧ Controller.badQuantity (some (.num (-1))) = true
    ∧ Controller.badQuantity (some (.num 0)) = false
    ∧ Controller.badUnitPrice (some (.num (-(1/100)))) = true
    ∧ Controller.badUnitPrice (some (.num 0)) = false
    ∧ Controller.badName (some (.str "")) = true
    ∧ Controller.badName (some (.str "   ")) = true
    ∧ Controller.badName (some (.str "x")) = false
    ∧ (∀ s, (Controller.createItem s { quantity := some (.num 0) }).out.statusOf = some 201)
    ∧ (∀ s, (Controller.createItem s { unitPrice := some (.num 0) }).out.statusOf = some 201)
    ∧ (∀ s, (Controller.createItem s { name := some (.str "x") }).out.statusOf = some 201)
    ∧ (∀ s, (Controller.createItem s { quantity := some (.num (-1)) }).out.statusOf = some 400)
    ∧ (∀ s, (Controller.createItem s { unitPrice := some (.num (-(1/100))) }).out.statusOf = some 400)
    ∧ (∀ s, (Controller.createItem s { name := some (.str "   ") }).out.statusOf = some 400)
    ∧ (∀ s, (Controller.createItem s { name := some (.str "") }).out.statusOf = some 400) := by
  refine ⟨createItem_status400, updateItem_status400, by decide, by decide, ?_, by decide,
    by decide, by decide, by decide, ?_, ?_, ?_, ?_, ?_, ?_, ?_⟩
  · norm_num [Controller.badUnitPrice]
  · intro s
    rw [createItem_accepts s _ (by decide)]; rfl
  · intro s
    rw [createItem_accepts s _ (by decide)]; rfl
  · intro s
    rw [createItem_accepts s _ (by decide)]; rfl
  · intro s
    exact (createItem_rejects s _ (by decide)).1
  · intro s
    refine (createItem_rejects s _ ?_).1
    simp [fieldRejected, Controller.badUnitPrice]
  · intro s
    exact (createItem_rejects s _ (by decide)).1
  · intro s
    exact (createItem_rejects s _ (by decide)).1

/-- Witness for C1 at concrete inputs. -/
theorem c1_witness :
    (Controller.createItem sampleStore { quantity := some (JsValue.num (-1)) }).out.statusOf = some 400 ∧
    (Controller.updateItem sampleStore "a1" { name := some (JsValue.str "   ") }).out.statusOf = some 400 ∧
    (Controller.createItem sampleStore { name := some (JsValue.str "x") }).out.statusOf = some 201 :=
  ⟨(c1_validation_boundaries.1 sampleStore _).mpr (by decide),
   (c1_validation_boundaries.2.1 sampleStore "a1" _).mpr (Or.inr (Or.inr (by decide))),
   c1_validation_boundaries.2.2.2.2.2.2.2.2.2.2.2.1 sampleStore⟩

/-- C2 counterexample: the middleware does not send every unrecognised
error with status 500 — the source computes `err.statusCode || 500`, so an
unrecognised error that carries its own `statusCode` (as the middleware's
`CustomError` interface allows) keeps that status.  Here an `other`-kind
error with `statusCode = 403` is answered with 403, not 500. -/
theorem c2_counterexample :
    strayErr.kind = .other ∧
    strayErr.message = "boom" ∧
    (errorHandler "production" strayErr).status = 403 ∧
    ¬ (errorHandler "production" strayErr).status = 500 := by decide

/-- C2 (amended): the middleware maps P2002 to 400 with the generic
already-exists message, P2025 to 404 with the generic not-found message,
P2003 to 400 with the generic invalid-reference message, Prisma validation
failures to 400, and any unrecognised error — other-kind errors as well as
known-request errors with an unlisted code — to the error's own
`statusCode` when it carries a non-zero one and 500 otherwise, with the
error's own message or the generic fallback when the message is empty. -/
theorem c2_error_translation (env : String) (err : JsError) :
    (err.kind = .knownRequest "P2002" →
      (errorHandler env err).status = 400 ∧
      (errorHandler env err).error = "A record with this value already exists") ∧
    (err.kind = .knownRequest "P2025" →
      (errorHandler env err).status = 404 ∧
      (errorHandler env err).error = "Record not found") ∧
    (err.kind = .knownRequest "P2003" →
      (errorHandler env err).status = 400 ∧
      (errorHandler env err).error = "Invalid reference to related record") ∧
    (err.kind = .validation →
      (errorHandler env err).status = 400 ∧
      (errorHandler env err).error = "Invalid data provided") ∧
    (err.kind = .other →
      (errorHandler env err).status = jsOrNat err.statusCode 500 ∧
      (errorHandler env err).error = jsOrStr err.message "Internal Server Error") ∧
    (∀ code, err.kind = .knownRequest code →
      code ≠ "P2002" → code ≠ "P2025" → code ≠ "P2003" →
      (errorHandler env err).status = jsOrNat err.statusCode 500 ∧
      (errorHandler env err).error = jsOrStr err.message "Internal Server Error") ∧
    (err.kind = .other → err.statusCode = none → (errorHandler env err).status = 500) ∧
    (err.kind = .other → err.message = "" →
      (errorHandler env err).error = "Internal Server Error") := by
  refine ⟨?_, ?_, ?_, ?_, ?_, ?_, ?_, ?_⟩
  · intro h; simp [errorHandler, h]
  · intro h; simp [errorHandler, h]
  · intro h; simp [errorHandler, h]
  · intro h; simp [errorHandler, h]
  · intro h; simp [errorHandler, h]
  · intro code h h1 h2 h3; simp [errorHandler, h, h1, h2, h3]
  · intro h h1; simp [errorHandler, h, h1, jsOrNat]
  · intro h h1; simp [errorHandler, h, h1, jsOrStr]

/-- Witness for C2 at concrete errors of each recognised kind. -/
theorem c2_witness :
    (errorHandler "production" p2002Err).status = 400 ∧
    (errorHandler "production" p2025Err).status = 404 ∧
    (errorHandler "production" p2003Err).status = 400 ∧
    (errorHandler "production" validationErr).status = 400 ∧
    (errorHandler "production" plainErr).status = 500 :=
  ⟨((c2_error_translation "production" p2002Err).1 rfl).1,
   ((c2_error_translation "production" p2025Err).2.1 rfl).1,
   ((c2_error_translation "production" p2003Err).2.2.1 rfl).1,
   ((c2_error_translation "production" validationErr).2.2.2.1 rfl).1,
   (c2_error_translation "production" plainErr).2.2.2.2.2.2.1 rfl rfl⟩

/-- C3: a PUT /items/:id request whose body contains none of the recognised
fields is answered 400 with the at-least-one-field message (when the id
passes its guard; with a bad id it is still 400), the store is unchanged
and no service function is invoked; POST /items with an empty body is
accepted with 201 and the created row takes every schema default, with
`createdAt = updatedAt = now`. -/
theorem c3_empty_body_handling (s : Store) (id : String) :
    (Controller.updateItem s id emptyBody).out.statusOf = some 400 ∧
    (Controller.updateItem s id emptyBody).store = s ∧
    (Controller.updateItem s id emptyBody).svcInvoked = false ∧
    (Controller.badId id = false →
      (Controller.updateItem s id emptyBody).out =
        .resp 400 (.errObj "At least one field (name, description, quantity, unitPrice, category, date, or ownerID) must be provided")) ∧
    Controller.createItem s emptyBody =
      { out := .resp 201 (.itemObj (createdOf s emptyBody))
        store := { items := s.items ++ [createdOf s emptyBody], clock := s.clock + 1, nextId := s.nextId + 1 }
        svcInvoked := true } ∧
    (createdOf s emptyBody).name = "item" ∧
    (createdOf s emptyBody).description = "item description" ∧
    (createdOf s emptyBody).quantity = 1 ∧
    (createdOf s emptyBody).unitPrice = 0 ∧
    (createdOf s emptyBody).category = "Temporary" ∧
    (createdOf s emptyBody).date = (s.clock : Int) ∧
    (createdOf s emptyBody).ownerID = "admin-1" ∧
    (createdOf s emptyBody).createdAt = s.clock ∧
    (createdOf s emptyBody).updatedAt = s.clock := by
  have hrej := updateItem_rejects s id emptyBody (Or.inr (Or.inl (by decide)))
  refine ⟨hrej.1, hrej.2.1, hrej.2.2, ?_, ?_, ?_, ?_, ?_, ?_, ?_, ?_, ?_, ?_, ?_⟩
  · intro hid
    simp [Controller.updateItem, hid, Controller.allAbsent, emptyBody]
  · rw [createItem_accepts s emptyBody (by decide)]
    simp [Service.createItem, createdOf]
  all_goals simp [createdOf, Service.createItem, Controller.mkCreateInput, emptyBody]

/-- Witness for C3 at a concrete store and id. -/
theorem c3_witness :
    (Controller.updateItem sampleStore "a1" emptyBody).out =
      .resp 400 (.errObj "At least one field (name, description, quantity, unitPrice, category, date, or ownerID) must be provided") ∧
    (Controller.updateItem sampleStore "a1" emptyBody).store = sampleStore ∧
    (createdOf sampleStore emptyBody).quantity = 1 :=
  ⟨(c3_empty_body_handling sampleStore "a1").2.2.2.1 (by decide),
   (c3_empty_body_handling sampleStore "a1").2.1,
   (c3_empty_body_handling sampleStore "a1").2.2.2.2.2.2.2.1⟩

/-- C4 counterexample: the claim quantifies over every non-empty id string,
but a whitespace-only id such as a single space is non-empty, matches no
stored item, and is answered 400 (invalid id) rather than 404, because the
handler guard tests the trimmed id. -/
theorem c4_counterexample :
    ¬ " " = "" ∧
    Service.getItemById emptyStore " " = none ∧
    (Controller.getItemById emptyStore " ").out = .resp 400 (.errObj "Invalid item ID") ∧
    ¬ (Controller.getItemById emptyStore " ").out.statusOf = some 404 := by decide

/-- C4 (amended): for every id whose trimmed form is non-empty, the
get-by-id service operation returns an explicit not-found signal (the
`Option` result — it never throws for a missing row), and the handler turns
that signal into a 404 response with the item-not-found error body; for an
id matching a stored item it responds 200 with that item. -/
theorem c4_get_by_id (s : Store) (id : String) (hid : ¬ jsTrim id = "") :
    (Service.getItemById s id = none →
      Controller.getItemById s id =
        { out := .resp 404 (.errObj "Item not found"), store := s, svcInvoked := true }) ∧
    (∀ it, Service.getItemById s id = some it →
      Controller.getItemById s id =
        { out := .resp 200 (.itemObj it), store := s, svcInvoked := true }) := by
  have hne : ¬ id = "" := fun he => hid (by subst he; decide)
  have hids : Controller.badId id = false := by simp [Controller.badId, hne, hid]
  constructor
  · intro h; simp [Controller.getItemById, hids, h]
  · intro it h; simp [Controller.getItemById, hids, h]

/-- Witness for C4 at a missing and a present id. -/
theorem c4_witness :
    ¬ jsTrim "zzz" = "" ∧
    Controller.getItemById sampleStore "zzz" =
      { out := .resp 404 (.errObj "Item not found"), store := sampleStore, svcInvoked := true } ∧
    Controller.getItemById sampleStore "a1" =
      { out := .resp 200 (.itemObj sampleItem), store := sampleStore, svcInvoked := true } :=
  ⟨by decide, (c4_get_by_id sampleStore "zzz" (by decide)).1 (by decide),
   (c4_get_by_id sampleStore "a1" (by decide)).2 sampleItem (by decide)⟩

/-- C5: update applies a partial field merge.  When validation passes and
the target row exists, the handler responds 200 with the merged item; only
fields present in the body change, every absent field keeps its prior
value, `id` and `createdAt` are unchanged, `updatedAt` is refreshed to the
current clock, and rows with a different id are untouched. -/
theorem c5_partial_merge (s : Store) (id : String) (b : Body) (it0 : Item)
    (hid : Controller.badId id = false) (hne : Controller.allAbsent b = false)
    (hv : fieldRejected b = false)
    (hfind : s.items.find? (fun it => decide (it.id = id)) = some it0) :
    Controller.updateItem s id b =
      { out := .resp 200 (.itemObj (updatedOf s b it0))
        store :=
          { items := s.items.map
              (fun x => if x.id = id then Service.applyUpdate (Controller.mkUpdateInput b) s.clock x else x)
            clock := s.clock + 1
            nextId := s.nextId }
        svcInvoked := true } ∧
    (updatedOf s b it0).id = it0.id ∧
    (updatedOf s b it0).createdAt = it0.createdAt ∧
    (updatedOf s b it0).updatedAt = s.clock ∧
    (b.name = none → (updatedOf s b it0).name = it0.name) ∧
    (b.description = none → (updatedOf s b it0).description = it0.description) ∧
    (b.quantity = none → (updatedOf s b it0).quantity = it0.quantity) ∧
    (b.unitPrice = none → (updatedOf s b it0).unitPrice = it0.unitPrice) ∧
    (b.category = none → (updatedOf s b it0).category = it0.category) ∧
    (b.date = none → (updatedOf s b it0).date = it0.date) ∧
    (b.ownerID = none → (updatedOf s b it0).ownerID = it0.ownerID) ∧
    (∀ x ∈ s.items, ¬ x.id = id →
      x ∈ (Controller.updateItem s id b).store.items) := by
  have hrec := updateItem_ok s id b it0 hid hne hv hfind
  refine ⟨hrec, rfl, rfl, rfl, ?_, ?_, ?_, ?_, ?_, ?_, ?_, ?_⟩
  · intro h; simp [updatedOf, Service.applyUpdate, Controller.mkUpdateInput, h]
  · intro h; simp [updatedOf, Service.applyUpdate, Controller.mkUpdateInput, h]
  · intro h; simp [updatedOf, Service.applyUpdate, Controller.mkUpdateInput, h]
  · intro h; simp [updatedOf, Service.applyUpdate, Controller.mkUpdateInput, h]
  · intro h; simp [updatedOf, Service.applyUpdate, Controller.mkUpdateInput, h]
  · intro h; simp [updatedOf, Service.applyUpdate, Controller.mkUpdateInput, h]
  · intro h; simp [updatedOf, Service.applyUpdate, Controller.mkUpdateInput, h]
  · intro x hx hnx
    rw [hrec]
    simp only [List.mem_map]
    exact ⟨x, hx, by simp [hnx]⟩

/-- Witness for C5: a name-only update keeps the description, id and
creation stamp and refreshes `updatedAt`. -/
theorem c5_witness :
    (Controller.updateItem sampleStore "a1" bodyName).out =
      .resp 200 (.itemObj (updatedOf sampleStore bodyName sampleItem)) ∧
    (updatedOf sampleStore bodyName sampleItem).description = sampleItem.description ∧
    (updatedOf sampleStore bodyName sampleItem).createdAt = sampleItem.createdAt ∧
    (updatedOf sampleStore bodyName sampleItem).id = sampleItem.id ∧
    (updatedOf sampleStore bodyName sampleItem).updatedAt = 1 := by
  have h := c5_partial_merge sampleStore "a1" bodyName sampleItem
    (by decide) (by decide) (by decide) (by decide)
  exact ⟨by rw [h.1], h.2.2.2.2.2.1 rfl, h.2.2.1, h.2.1, h.2.2.2.1⟩

/-- C6: GET /items responds 200 with the list of all stored items sorted
newest-created first, and the empty store yields the empty array.  Creation
stamps strictly increasing `createdAt` values (conjuncts three to five), so
for any two rows A created before B — that is, with a smaller stamp — every
occurrence of B in the response precedes every occurrence of A. -/
theorem c6_list_ordering :
    (∀ s : Store, Controller.getAllItems s =
      { out := .resp 200 (.itemsArr (Service.getAllItems s)), store := s, svcInvoked := true }) ∧
    Service.getAllItems emptyStore = [] ∧
    (∀ s : Store, ∀ x : Item, x ∈ Service.getAllItems s ↔ x ∈ s.items) ∧
    (∀ (s : Store) (d : CreateItemInput), clockFresh s → clockFresh (Service.createItem s d).2) ∧
    (∀ (s : Store) (d : CreateItemInput) (x : Item), clockFresh s → x ∈ s.items →
      x.createdAt < (Service.createItem s d).1.createdAt) ∧
    (∀ (s : Store) (a b : Item), a ∈ s.items → b ∈ s.items → a.createdAt < b.createdAt →
      a ∈ Service.getAllItems s ∧ b ∈ Service.getAllItems s ∧
      ∀ i j : Fin (Service.getAllItems s).length,
        (Service.getAllItems s).get i = a → (Service.getAllItems s).get j = b → j < i) := by
  refine ⟨fun s => rfl, rfl, ?_, ?_, ?_, ?_⟩
  · intro s x
    exact (List.perm_insertionSort Service.byNewest s.items).mem_iff
  · intro s d hf x hx
    rcases List.mem_append.mp hx with h | h
    · exact Nat.lt_trans (hf x h) (Nat.lt_succ_self _)
    · rcases List.mem_singleton.mp h with rfl
      exact Nat.lt_succ_self _
  · intro s d x hf hx
    exact hf x hx
  · intro s a b ha hb hab
    have hperm := List.perm_insertionSort Service.byNewest s.items
    have hsorted := List.sorted_insertionSort Service.byNewest s.items
    refine ⟨hperm.mem_iff.mpr ha, hperm.mem_iff.mpr hb, ?_⟩
    intro i j hia hjb
    simp only [Service.getAllItems] at hia hjb
    rcases lt_trichotomy i j with h | h | h
    · exfalso
      have := hsorted.rel_get_of_lt h
      rw [hia, hjb] at this
      exact absurd hab (not_lt.mpr this)
    · exfalso
      rw [h, hjb] at hia
      subst hia
      exact lt_irrefl _ hab
    · exact h

/-- Witness for C6 on a two-row store with distinct creation stamps. -/
theorem c6_witness :
    sampleItem ∈ Service.getAllItems twoStore ∧
    laterItem ∈ Service.getAllItems twoStore ∧
    clockFresh (Service.createItem twoStore {}).2 :=
  ⟨(c6_list_ordering.2.2.2.2.2 twoStore sampleItem laterItem
      (by decide) (by decide) (by decide)).1,
   (c6_list_ordering.2.2.2.2.2 twoStore sampleItem laterItem
      (by decide) (by decide) (by decide)).2.1,
   c6_list_ordering.2.2.2.1 twoStore {} (by decide)⟩

/-- C7 counterexample: the id is not validated merely for non-emptiness of
its string form — a whitespace-only id is a non-empty string yet is
rejected with 400, because the guard tests the trimmed id. -/
theorem c7_counterexample :
    ¬ " " = "" ∧ (Controller.getItemById sampleStore " ").out.statusOf = some 400 := by decide

/-- C7 (amended): a GET /items/:id request whose id trims to the empty
string is answered 400 with the invalid-id error body; every other id —
with no format or UUID validation whatsoever — passes the guard and is
answered 404 or 200. -/
theorem c7_id_validation (s : Store) (id : String) :
    (jsTrim id = "" →
      Controller.getItemById s id =
        { out := .resp 400 (.errObj "Invalid item ID"), store := s, svcInvoked := false }) ∧
    (¬ jsTrim id = "" →
      (Controller.getItemById s id).out.statusOf = some 404 ∨
      (Controller.getItemById s id).out.statusOf = some 200) := by
  constructor
  · intro h
    have hb : Controller.badId id = true := by simp [Controller.badId, h]
    simp [Controller.getItemById, hb]
  · intro h
    have hne : ¬ id = "" := fun he => h (by subst he; decide)
    have hids : Controller.badId id = false := by simp [Controller.badId, hne, h]
    rcases hm : Service.getItemById s id with _ | it <;>
      simp [Controller.getItemById, hids, hm, Outcome.statusOf]

/-- Witness for C7: a whitespace id is rejected, an arbitrary non-UUID id
passes the guard. -/
theorem c7_witness :
    Controller.getItemById sampleStore "  " =
      { out := .resp 400 (.errObj "Invalid item ID"), store := sampleStore, svcInvoked := false } ∧
    ((Controller.getItemById sampleStore "not-a-uuid").out.statusOf = some 404 ∨
      (Controller.getItemById sampleStore "not-a-uuid").out.statusOf = some 200) :=
  ⟨(c7_id_validation sampleStore "  ").1 (by decide),
   (c7_id_validation sampleStore "not-a-uuid").2 (by decide)⟩

/-- C8 counterexample: the extra `stack` and `details` fields are gated on
the environment being exactly development, not on it being non-production:
in the non-production environment named test they are absent. -/
theorem c8_counterexample :
    ¬ "test" = "production" ∧
    (errorHandler "test" plainErr).stack = none ∧
    (errorHandler "test" plainErr).details = none := by decide

/-- C8 (amended): the error response carries the stack trace and the raw
message exactly when NODE_ENV is the string development; in every other
environment — production or any other value — only the mapped message is
returned. -/
theorem c8_dev_details (env : String) (err : JsError) :
    (errorHandler env err).stack = (if env = "development" then some err.stack else none) ∧
    (errorHandler env err).details = (if env = "development" then some err.message else none) ∧
    (env = "development" →
      (errorHandler env err).stack = some err.stack ∧
      (errorHandler env err).details = some err.message) ∧
    (env ≠ "development" →
      (errorHandler env err).stack = none ∧
      (errorHandler env err).details = none) := by
  refine ⟨rfl, rfl, ?_, ?_⟩
  · intro h; simp [errorHandler, h]
  · intro h; simp [errorHandler, h]

/-- Witness for C8 in the development and production environments. -/
theorem c8_witness :
    (errorHandler "development" plainErr).stack = some "st" ∧
    (errorHandler "production" plainErr).stack = none :=
  ⟨((c8_dev_details "development" plainErr).2.2.1 rfl).1,
   ((c8_dev_details "production" plainErr).2.2.2 (by decide)).1⟩

/-- C9: every string field supplied in a create or update body (name,
description, category, ownerID) is persisted as its whitespace-trimmed
value, not the raw input — in particular a padded description is stored
trimmed even though only name, category and ownerID trim for validation. -/
theorem c9_trimmed_persistence (s : Store) (b : Body) :
    (fieldRejected b = false →
      Controller.createItem s b =
        { out := .resp 201 (.itemObj (createdOf s b))
          store := (Service.createItem s (Controller.mkCreateInput b)).2
          svcInvoked := true } ∧
      (∀ x, b.name = some (.str x) → (createdOf s b).name = jsTrim x) ∧
      (∀ x, b.description = some (.str x) → (createdOf s b).description = jsTrim x) ∧
      (∀ x, b.category = some (.str x) → (createdOf s b).category = jsTrim x) ∧
      (∀ x, b.ownerID = some (.str x) → (createdOf s b).ownerID = jsTrim x)) ∧
    (∀ id it0, Controller.badId id = false → Controller.allAbsent b = false →
      fieldRejected b = false →
      s.items.find? (fun it => decide (it.id = id)) = some it0 →
      (Controller.updateItem s id b).out = .resp 200 (.itemObj (updatedOf s b it0)) ∧
      (∀ x, b.name = some (.str x) → (updatedOf s b it0).name = jsTrim x) ∧
      (∀ x, b.description = some (.str x) → (updatedOf s b it0).description = jsTrim x) ∧
      (∀ x, b.category = some (.str x) → (updatedOf s b it0).category = jsTrim x) ∧
      (∀ x, b.ownerID = some (.str x) → (updatedOf s b it0).ownerID = jsTrim x)) := by
  constructor
  · intro hv
    refine ⟨createItem_accepts s b hv, ?_, ?_, ?_, ?_⟩ <;>
      (intro x hx; simp [createdOf, Service.createItem, Controller.mkCreateInput, hx, Controller.strOf])
  · intro id it0 hid hne hv hfind
    have h := updateItem_ok s id b it0 hid hne hv hfind
    refine ⟨by rw [h], ?_, ?_, ?_, ?_⟩ <;>
      (intro x hx; simp [updatedOf, Service.applyUpdate, Controller.mkUpdateInput, hx, Controller.strOf])

/-- Witness for C9: a description supplied padded is stored trimmed, on
both the create and the update path. -/
theorem c9_witness :
    (createdOf sampleStore bodyDesc).description = "x" ∧
    (updatedOf sampleStore bodyDesc sampleItem).description = "x" := by
  have h1 := (c9_trimmed_persistence sampleStore bodyDesc).1 (by decide)
  have h2 := (c9_trimmed_persistence sampleStore bodyDesc).2 "a1" sampleItem
    (by decide) (by decide) (by decide) (by decide)
  exact ⟨(h1.2.2.1 "  x  " rfl).trans (by decide), (h2.2.2.1 "  x  " rfl).trans (by decide)⟩

/-- C10: whenever the create, update, get-by-id or delete handler answers
400 from its own validation, it does so before invoking any service
function, and the stored state is unchanged. -/
theorem c10_validation_atomicity (s : Store) (id : String) (b : Body) :
    ((Controller.createItem s b).out.statusOf = some 400 →
      (Controller.createItem s b).store = s ∧ (Controller.createItem s b).svcInvoked = false) ∧
    ((Controller.updateItem s id b).out.statusOf = some 400 →
      (Controller.updateItem s id b).store = s ∧ (Controller.updateItem s id b).svcInvoked = false) ∧
    ((Controller.getItemById s id).out.statusOf = some 400 →
      (Controller.getItemById s id).store = s ∧ (Controller.getItemById s id).svcInvoked = false) ∧
    ((Controller.deleteItem s id).out.statusOf = some 400 →
      (Controller.deleteItem s id).store = s ∧ (Controller.deleteItem s id).svcInvoked = false) := by
  refine ⟨?_, ?_, ?_, ?_⟩
  · intro h
    have hr := createItem_rejects s b ((createItem_status400 s b).mp h)
    exact ⟨hr.2.1, hr.2.2⟩
  · intro h
    have hr := updateItem_rejects s id b ((updateItem_status400 s id b).mp h)
    exact ⟨hr.2.1, hr.2.2⟩
  · intro h
    unfold Controller.getItemById at *
    cases hb : Controller.badId id <;> simp [hb] at h ⊢
    rcases hm : Service.getItemById s id with _ | it <;> simp_all [Outcome.statusOf]
  · intro h
    unfold Controller.deleteItem at *
    cases hb : Controller.badId id <;> simp [hb] at h ⊢
    rcases hm : Service.deleteItem s id with e | ⟨it, s2⟩ <;> simp_all [Outcome.statusOf]

/-- Witness for C10 at concrete rejected requests. -/
theorem c10_witness :
    (Controller.updateItem sampleStore "" emptyBody).store = sampleStore ∧
    (Controller.updateItem sampleStore "" emptyBody).svcInvoked = false ∧
    (Controller.getItemById sampleStore " ").store = sampleStore :=
  ⟨((c10_validation_atomicity sampleStore "" emptyBody).2.1 (by decide)).1,
   ((c10_validation_atomicity sampleStore "" emptyBody).2.1 (by decide)).2,
   ((c10_validation_atomicity sampleStore " " emptyBody).2.2.1 (by decide)).1⟩
